import Mathlib

/-!
Verification of the PyGame-DMC-2D-Sprite combat/physics core.

This file shallowly embeds the parts of the repository needed to settle the
frozen claims: the rigid-body physics kernel (`rigidbody.py`), the mook enemy
state machine (`enemy1.py`), the boss state machine (`Yori.py`) and the player
state machine (`player.py`).  Machine reals (Python floats) are modelled as
rationals; all numeric literals in the source are exactly representable.
The one non-rational operation in the sources, `math.sqrt`, is embedded
relationally: functions that consume a computed distance take that distance as
an extra argument, and theorems carry the hypothesis `dist * dist = dx*dx + dy*dy`
(with `0 ≤ dist`), which characterises the square root exactly.
-/

namespace DMC

/-! ### Embedded definitions (translated from the Python sources) -/

/-- Floored modulo on rationals, matching Python's `%` operator for a positive
modulus (used by `enemy1.py` / `Yori.py` `animate`: `(frame + speed) % len(seq)`). -/
def qmod (a b : ℚ) : ℚ := a - b * (⌊a / b⌋ : ℤ)

/-- The fields of `RigidBody` (with its `CircleCollider`) that the collision
resolution methods read or write (`rigidbody.py`, class `RigidBody`). -/
structure RB where
  center_x : ℚ
  center_y : ℚ
  radius : ℚ
  velocity_x : ℚ
  velocity_y : ℚ
  is_grounded : Bool
  ground_y : Option ℚ
  bounce : ℚ
  deriving DecidableEq, Repr

/-- An axis-aligned tile rectangle (a `pygame.Rect` as used by
`RigidBody.resolve_tile_collision`). -/
structure Rect where
  left : ℚ
  right : ℚ
  top : ℚ
  bottom : ℚ
  deriving DecidableEq, Repr

/-- `RigidBody.check_ground_collision(ground_y)` (`rigidbody.py` lines 126-156):
with no ground (`None`) force `is_grounded = False`; otherwise, when the bottom
edge `center_y + radius` has reached the ground and vertical velocity is
non-negative, snap the bottom to the ground, zero the vertical velocity and set
`is_grounded = True`; when the bottom has reached the ground but the body moves
upward, nothing changes; when the bottom is above the ground, clear
`is_grounded` while remembering `ground_y`. -/
def check_ground_collision (rb : RB) (g : Option ℚ) : RB :=
  match g with
  | none => { rb with is_grounded := false, ground_y := none }
  | some gy =>
      if rb.center_y + rb.radius ≥ gy then
        if rb.velocity_y ≥ 0 then
          { rb with is_grounded := true, ground_y := some gy,
                    center_y := gy - rb.radius, velocity_y := 0 }
        else
          rb
      else
        { rb with is_grounded := false, ground_y := some gy }

/-- Closest point of a rectangle to an x-coordinate,
`max(rect.left, min(center_x, rect.right))` (`rigidbody.py` line 174). -/
def closestX (t : Rect) (cx : ℚ) : ℚ := max t.left (min cx t.right)

/-- Closest point of a rectangle to a y-coordinate,
`max(rect.top, min(center_y, rect.bottom))` (`rigidbody.py` line 175). -/
def closestY (t : Rect) (cy : ℚ) : ℚ := max t.top (min cy t.bottom)

/-- `RigidBody.resolve_tile_collision(tile_rect)` (`rigidbody.py` lines 167-206).
`dist` stands for the Python value `math.sqrt(dx*dx + dy*dy)`; callers relate it
to the squared distance by hypothesis.  When `0 < dist < radius` the circle is
pushed out by `radius - dist` along the unit normal `(dx/dist, dy/dist)`, the
velocity is reflected along the normal scaled by `bounce`, and if the normal
points mostly upward (`ny < -0.7`) the body becomes grounded and any downward
(positive) vertical velocity is clamped to 0.  Otherwise nothing changes. -/
def resolve_tile_collision (rb : RB) (t : Rect) (dist : ℚ) : RB :=
  let dx := rb.center_x - closestX t rb.center_x
  let dy := rb.center_y - closestY t rb.center_y
  if dist < rb.radius ∧ 0 < dist then
    let nx := dx / dist
    let ny := dy / dist
    let penetration := rb.radius - dist
    let new_x := rb.center_x + nx * penetration
    let new_y := rb.center_y + ny * penetration
    let dot_product := rb.velocity_x * nx + rb.velocity_y * ny
    let vx := rb.velocity_x - 2 * dot_product * nx * rb.bounce
    let vy := rb.velocity_y - 2 * dot_product * ny * rb.bounce
    if ny < -(7/10) then
      { rb with center_x := new_x, center_y := new_y,
                velocity_x := vx,
                velocity_y := if vy > 0 then 0 else vy,
                is_grounded := true, ground_y := some t.top }
    else
      { rb with center_x := new_x, center_y := new_y,
                velocity_x := vx, velocity_y := vy }
  else
    rb

/-- `dx = center_x - closest_x` as computed by `resolve_tile_collision`
(`rigidbody.py` line 178). -/
def tileDx (rb : RB) (t : Rect) : ℚ := rb.center_x - closestX t rb.center_x

/-- `dy = center_y - closest_y` as computed by `resolve_tile_collision`
(`rigidbody.py` line 179). -/
def tileDy (rb : RB) (t : Rect) : ℚ := rb.center_y - closestY t rb.center_y

/-- The velocity/normal dot product `velocity_x * nx + velocity_y * ny`
(`rigidbody.py` line 196), with `dist` passed in for the sqrt value. -/
def tileDot (rb : RB) (t : Rect) (dist : ℚ) : ℚ :=
  rb.velocity_x * (tileDx rb t / dist) + rb.velocity_y * (tileDy rb t / dist)

/-- The reflected vertical velocity `velocity_y - 2 * dot * ny * bounce`
(`rigidbody.py` line 198), before the ground-contact clamp. -/
def tileVyRefl (rb : RB) (t : Rect) (dist : ℚ) : ℚ :=
  rb.velocity_y - 2 * tileDot rb t dist * (tileDy rb t / dist) * rb.bounce

/-- The action states of the mook enemy (`enemy1.py`, the values taken by
`self.state`). -/
inductive EState where
  | idle | walk | approach | attack | recover | hurt | die | stun
  deriving DecidableEq, Repr

/-- The fields of `Enemy` read or written by `take_damage` and the hurt/death
branches of `Enemy.update`. -/
structure EnemyS where
  state : EState
  frame : ℚ
  current_health : ℚ
  max_health : ℚ
  deriving DecidableEq, Repr

/-- `Enemy.take_damage(damage)` (`enemy1.py` lines 141-155): a no-op while in
`hurt`, `die` or `stun`; otherwise subtract the damage (no clamping), enter
`die` when health drops to 0 or below, else enter `hurt`; the frame cursor is
reset on the transition. -/
def enemyTakeDamage (s : EnemyS) (damage : ℚ) : EnemyS :=
  if s.state = .hurt ∨ s.state = .die ∨ s.state = .stun then s
  else
    let h := s.current_health - damage
    if h ≤ 0 then { s with current_health := h, state := .die, frame := 0 }
    else { s with current_health := h, state := .hurt, frame := 0 }

/-- `Enemy.animate(seq, speed)` effect on the frame cursor
(`enemy1.py` line 176): `frame = (frame + speed) % len(seq)`. -/
def enemyAnimateFrame (n : ℕ) (speed frame : ℚ) : ℚ := qmod (frame + speed) n

/-- The `hurt` branch of `Enemy.update` (`enemy1.py` lines 212-217): advance
the hurt animation at speed 0.3 and return to `idle` (frame 0) once the cursor
reaches the last frame index. -/
def enemyHurtTick (hurtLen : ℕ) (s : EnemyS) : EnemyS :=
  if s.state = .hurt then
    let f := enemyAnimateFrame hurtLen (3/10) s.frame
    if f ≥ (hurtLen : ℚ) - 1 then { s with state := .idle, frame := 0 }
    else { s with frame := f }
  else s

/-- The mook of the C5 scenario at spawn: `idle`, health 100/100. -/
def mook0 : EnemyS := { state := .idle, frame := 0, current_health := 100, max_health := 100 }

/-- The C5 scenario trace: hit for 20, let the hurt animation (2 frames here;
frame counts come from the image assets) play out back to `idle` (4 update
ticks), hit for 40, recover again, then hit for 60.  Each hit lands within the
player's combo spacing, which the mook model does not consult. -/
def mookAfterCombo : EnemyS :=
  let h := enemyHurtTick 2
  enemyTakeDamage (h (h (h (h (enemyTakeDamage (h (h (h (h (enemyTakeDamage mook0 20))))) 40))))) 60

/-- Whether an attack-state instance is still running or has transitioned out
(mook: to `recover`; boss: to the next combo attack or the dash back). -/
inductive AtkPhase where
  | inAttack | exited
  deriving DecidableEq, Repr

/-- The per-instance attack data: phase, frame cursor and the `damage_dealt`
latch. -/
structure AtkS where
  phase : AtkPhase
  frame : ℚ
  damage_dealt : Bool
  deriving DecidableEq, Repr

/-- One `update()` tick of an attack-state instance with animation length `n`,
frame speed `speed` and damage fraction `frac`; returns the new state and
whether this tick applied damage (`enemy1.py` lines 242-264, `Yori.py` lines
640-689 and analogous). -/
def attackTick (n : ℕ) (speed frac : ℚ) (s : AtkS) : AtkS × Bool :=
  match s.phase with
  | .exited => (s, false)
  | .inAttack =>
      let f := qmod (s.frame + speed) n
      let dealt := !s.damage_dealt && decide (f ≥ (n : ℚ) * frac)
      if f ≥ (n : ℚ) - 1 then
        ({ phase := .exited, frame := 0, damage_dealt := false }, dealt)
      else
        ({ phase := .inAttack, frame := f, damage_dealt := s.damage_dealt || dealt }, dealt)

/-- Total number of damage applications over `k` consecutive ticks. -/
def attackDamageCount (n : ℕ) (speed frac : ℚ) (s : AtkS) : ℕ → ℕ
  | 0 => 0
  | k + 1 =>
      let r := attackTick n speed frac s
      (if r.2 then 1 else 0) + attackDamageCount n speed frac r.1 k

/-- A state from which no further damage can occur in this instance: the
instance has ended, or the latch is set. -/
def atkSpent (s : AtkS) : Prop := s.phase = .exited ∨ s.damage_dealt = true

/-- The action states of the player (`player.py`, the values taken by
`self.state`; the integer attack states 1, 2, 3 are `atk n`). -/
inductive PState where
  | idle | walk_start | walk | walk_stop | jump | jump2 | dash
  | hurt | death | block | counter | counter_attack | skill
  | atk (n : ℕ)
  deriving DecidableEq, Repr

/-- The delays between combo attacks, `self.attack_delays = {1: 1000, 2: 5000,
3: 1000}` with `.get(state, 0)` (`player.py` line 159). -/
def attackDelays : ℕ → ℚ
  | 1 => 1000
  | 2 => 5000
  | 3 => 1000
  | _ => 0

/-- Damage per combo step, `{1: 20, 2: 40, 3: 60}.get(state, 0)`
(`player.py` line 1125). -/
def clickAttackDamage : ℕ → ℚ
  | 1 => 20
  | 2 => 40
  | 3 => 60
  | _ => 0

/-- The fields of `Player` read or written by `Player.click` and the
attack-state branch of `Player.update`, plus the health of the single target
(the `self.target`/`check_attack_hit` fallback path; the geometric range test
is abstracted into the Boolean `targetHit`). -/
structure ClickS where
  counter_ready : Bool
  is_dead : Bool
  blocking : Bool
  countering : Bool
  counter_attacking : Bool
  state : PState
  frame : ℚ
  last_attack_time : ℚ
  targetHit : Bool
  targetHealth : ℚ
  deriving DecidableEq, Repr

/-- `Player.click()` (`player.py` lines 1084-1145), on the single-target path:
a counter-ready click starts the counter attack; clicks are ignored while
dead/hurt/blocking/countering, mid-air, or inside the 400 ms attack cooldown;
otherwise the combo step is chosen (chain 1→2→3 inside the per-step delay,
else restart at 1), the damage for that step is applied to the target
immediately — during this very call — and the frame cursor is reset to 0. -/
def playerClick (s : ClickS) (now : ℚ) : ClickS :=
  if s.counter_ready then
    { s with counter_ready := false, counter_attacking := true,
             state := .counter_attack, frame := 0 }
  else if s.is_dead ∨ s.state = .hurt ∨ s.state = .death ∨
      s.blocking ∨ s.countering ∨ s.counter_attacking ∨
      s.state = .counter ∨ s.state = .counter_attack then s
  else if s.state = .jump ∨ s.state = .jump2 then s
  else if now - s.last_attack_time < 400 then s
  else
    let k := match s.state with
      | .atk j => if now - s.last_attack_time ≤ attackDelays j then
                    (if j < 3 then j + 1 else 1)
                  else 1
      | _ => 1
    { s with state := .atk k, last_attack_time := now, frame := 0,
             targetHealth := if s.targetHit then s.targetHealth - clickAttackDamage k
                             else s.targetHealth }

/-- The attack-state branch of `Player.update` (`player.py` lines 943-976):
advance the frame cursor by 0.3 clamped to the last frame index, and return to
`idle` (frame 0) when the animation ends.  No damage is dealt here — the
target's health is untouched by every tick of the attack animation. -/
def playerAttackUpdateTick (n : ℕ) (s : ClickS) : ClickS :=
  match s.state with
  | .atk _ =>
      let f := min (s.frame + 3/10) ((n : ℚ) - 1)
      if f ≥ (n : ℚ) - 1 then { s with state := .idle, frame := 0 }
      else { s with frame := f }
  | _ => s

/-- The player one click away from a fresh attack: idle, all interrupt flags
clear, target (health 100) in range. -/
def clickStart : ClickS :=
  { counter_ready := false, is_dead := false, blocking := false,
    countering := false, counter_attacking := false, state := .idle,
    frame := 0, last_attack_time := 0, targetHit := true, targetHealth := 100 }

/-- The action states of the Yori boss (`Yori.py`, the values taken by
`self.state`). -/
inductive YState where
  | idle | walking | attack1 | attack2 | attack3 | dash
  | counter_wait | hurt_counter | block | counter | skill | die
  deriving DecidableEq, Repr

/-- The fields of a mook target read by `Player.check_counter_timing`
(`player.py` lines 340-360): its state, the length of its attack animation,
its frame cursor and its damage latch. -/
structure MookView where
  state : EState
  attackLen : ℕ
  frame : ℚ
  damage_dealt : Bool
  deriving DecidableEq, Repr

/-- The fields of a Yori target read by `Player.check_counter_timing`
(`player.py` lines 317-338): its state, the lengths of its three attack
animations, its frame cursor and its damage latch. -/
structure YoriView where
  state : YState
  len1 : ℕ
  len2 : ℕ
  len3 : ℕ
  frame : ℚ
  damage_dealt : Bool
  deriving DecidableEq, Repr

/-- The player's possible counter targets (`self.target`, dispatched on the
runtime class name in the source). -/
inductive CounterTarget where
  | mook (m : MookView)
  | yori (y : YoriView)
  deriving DecidableEq, Repr

/-- `Player.check_counter_timing()` (`player.py` lines 312-360): no target
means no counter.  Against Yori, any of `attack1/2/3` uses that attack's
animation length `L` and the INCLUSIVE window `L*0.3 <= frame <= L*0.7`.
Against a regular enemy, only state `attack` qualifies and the window is
STRICT: `L*0.3 < frame < L*0.7`.  Both also require the target's
`damage_dealt` latch to be unset. -/
def check_counter_timing : Option CounterTarget → Bool
  | none => false
  | some (.yori y) =>
      match y.state with
      | .attack1 =>
          (decide ((y.len1 : ℚ) * (3/10) ≤ y.frame) &&
           decide (y.frame ≤ (y.len1 : ℚ) * (7/10))) && !y.damage_dealt
      | .attack2 =>
          (decide ((y.len2 : ℚ) * (3/10) ≤ y.frame) &&
           decide (y.frame ≤ (y.len2 : ℚ) * (7/10))) && !y.damage_dealt
      | .attack3 =>
          (decide ((y.len3 : ℚ) * (3/10) ≤ y.frame) &&
           decide (y.frame ≤ (y.len3 : ℚ) * (7/10))) && !y.damage_dealt
      | _ => false
  | some (.mook m) =>
      if m.state = .attack then
        (decide ((m.attackLen : ℚ) * (3/10) < m.frame) &&
         decide (m.frame < (m.attackLen : ℚ) * (7/10))) && !m.damage_dealt
      else false

/-- The fields of `Yori` read or written by `Yori.take_damage` and
`Yori.start_counter_attack` (`Yori.py` lines 251-308 and 344-369).  The
wall-clock timestamps (`counter_attack_time`, `next_action_time`), sound
effects and the death-knockback velocity handoff are presentation/timing
details not consulted by the claims and are omitted.  The counter-chance draw
`random.random()` is passed in as the argument `rand`. -/
structure YoriTD where
  state : YState
  current_health : ℚ
  max_health : ℚ
  frame : ℚ
  damage_dealt : Bool
  low_health_dialog_shown : Bool
  should_trigger_low_health_dialog : Bool
  can_counter_attack : Bool
  deriving DecidableEq, Repr

/-- `Yori.start_counter_attack()` (`Yori.py` lines 344-369): unless dead,
enter the `counter` state with a fresh frame cursor and a cleared damage
latch. -/
def yoriStartCounterAttack (s : YoriTD) : YoriTD :=
  if s.state = .die then s
  else { s with state := .counter, frame := 0, damage_dealt := false }

/-- `Yori.trigger_low_health_dialog()` (`Yori.py` lines 324-331). -/
def yoriTriggerLowHealthDialog (s : YoriTD) : YoriTD :=
  { s with low_health_dialog_shown := true, can_counter_attack := true,
           should_trigger_low_health_dialog := true }

/-- `Yori.take_damage(damage)` (`Yori.py` lines 251-308): a hit during
`counter_wait` is parried into an immediate counter attack; a dead boss
ignores damage; otherwise, when the health fraction (computed BEFORE the hit)
is strictly below the 55% threshold, the boss is in one of its three attack
states and the 30% chance draw succeeds (`rand < 0.3`), the boss counters and
the damage is discarded entirely; otherwise health is reduced, the low-health
dialog fires on the first crossing of the threshold, and at 0 or below health
is clamped to 0 and the boss dies. -/
def yoriTakeDamage (s : YoriTD) (damage rand : ℚ) : YoriTD :=
  if s.state = .counter_wait then yoriStartCounterAttack s
  else if s.state = .die then s
  else
    let health_percentage := s.current_health / s.max_health
    if health_percentage < 55/100 ∧
        (s.state = .attack1 ∨ s.state = .attack2 ∨ s.state = .attack3) ∧
        rand < 3/10 then
      yoriStartCounterAttack s
    else
      let h := s.current_health - damage
      let s1 := { s with current_health := h }
      let s2 := if health_percentage ≥ 55/100 ∧ h / s.max_health < 55/100 ∧
                    s.low_health_dialog_shown = false
                then yoriTriggerLowHealthDialog s1 else s1
      if h ≤ 0 then { s2 with current_health := 0, state := .die, frame := 0 }
      else s2

/-- The boss of the C6 scenario: exactly 60% of max health (300/500), mid
`attack1`. -/
def yoriAt60 : YoriTD :=
  { state := .attack1, current_health := 300, max_health := 500, frame := 5,
    damage_dealt := false, low_health_dialog_shown := false,
    should_trigger_low_health_dialog := false, can_counter_attack := false }

/-- The fields of `Yori` read or written by the knockback part of the `block`
branch of `Yori.update` (`Yori.py` lines 871-884): `dir` is the facing sign
(±1) and the push goes opposite to it. -/
structure YoriKB where
  velocity_x : ℚ
  is_in_knockback : Bool
  dir : ℚ
  knockback_start_velocity : ℚ
  block_time : ℚ
  knockback_duration : ℚ
  deriving DecidableEq, Repr

/-- One tick of the knockback handling in Yori's `block` branch (`Yori.py`
lines 871-884): while in knockback, the progress is
`(now - block_time) / knockback_duration`; at progress ≥ 1 the knockback ends
and velocity is zeroed; before that the velocity is set to
`-dir * (start_velocity * (1 - progress))` — linear ease-out. -/
def yoriBlockKnockbackTick (s : YoriKB) (now : ℚ) : YoriKB :=
  if s.is_in_knockback then
    let knockback_progress := (now - s.block_time) / s.knockback_duration
    if knockback_progress ≥ 1 then
      { s with is_in_knockback := false, velocity_x := 0 }
    else
      { s with velocity_x := -s.dir * (s.knockback_start_velocity * (1 - knockback_progress)) }
  else s

/-- The fields of `Player` read or written by the knockback branch at the top
of `Player.update` (`player.py` lines 839-875).  `knockback_end_time` is the
lazily-created attribute, modelled as an `Option`. -/
structure PlayerKB where
  is_dead : Bool
  blocking : Bool
  block_holding : Bool
  state : PState
  is_grounded : Bool
  velocity_x : ℚ
  knockback_end_time : Option ℚ
  deriving DecidableEq, Repr

/-- One tick of the player's knockback branch (`player.py` lines 839-875)
combined with the horizontal effect of the `update_physics` call it makes
(`rigidbody.py` lines 98-124): while the knockback window is open the player
is forced into the held block pose, `is_grounded` is forced false (so ground
friction is suppressed), and the horizontal velocity is damped by the branch's
0.95 factor and then by the airborne `air_resistance` factor 0.99 inside
`update_physics` (horizontal acceleration is 0 here).  When the stored end
time is reached the attribute is deleted, blocking ends, the state returns to
`idle` and the residual velocity is zeroed.  Death aborts the knockback. -/
def playerKnockbackTick (s : PlayerKB) (now : ℚ) : PlayerKB :=
  match s.knockback_end_time with
  | none => s
  | some te =>
      if s.is_dead then { s with knockback_end_time := none }
      else if now < te then
        { s with blocking := true, block_holding := true, state := .block,
                 is_grounded := false,
                 velocity_x := s.velocity_x * (95/100) * (99/100) }
      else
        { s with knockback_end_time := none, blocking := false,
                 block_holding := false, state := .idle, velocity_x := 0 }

/-- The player mid-knockback of the C4 counterexample: velocity 50 (the push
`Yori.py` line 955 applies), end time 1000 ms away. -/
def playerKB0 : PlayerKB :=
  { is_dead := false, blocking := true, block_holding := true, state := .block,
    is_grounded := false, velocity_x := 50, knockback_end_time := some 1000 }

/-- The player's horizontal knockback velocity after `k` ticks (ticks at times
0, 1, 2, … all inside the knockback window). -/
def playerKBVel : ℕ → ℚ
  | 0 => playerKB0.velocity_x
  | k + 1 => (playerKnockbackTick { playerKB0 with velocity_x := playerKBVel k } (k : ℚ)).velocity_x

/-- The attack-state auto-advance at the top of `Player.update` (`player.py`
lines 913-919): when in integer attack state `k` and the per-step delay has
elapsed, move on to attack `k+1` (for `k < 3`) WITHOUT touching the frame
cursor, or back to `idle` with the cursor reset to 0 (for `k = 3`). -/
def playerAttackAutoAdvance (s : ClickS) (now : ℚ) : ClickS :=
  match s.state with
  | .atk k =>
      if now - s.last_attack_time > attackDelays k then
        if k < 3 then { s with state := .atk (k + 1), last_attack_time := now }
        else { s with state := .idle, frame := 0 }
      else s
  | _ => s

/-- The player one second into attack 1, frame cursor at 3. -/
def autoAdv0 : ClickS := { clickStart with state := .atk 1, frame := 3 }

/-- The fields of `Player` read or written by `Player.take_damage`
(`player.py` lines 183-226), together with those cleared by its call to
`reset_counter_state`. -/
structure PlayerTD where
  is_dead : Bool
  state : PState
  blocking : Bool
  countering : Bool
  counter_attacking : Bool
  counter_ready : Bool
  dashing : Bool
  current_health : ℚ
  max_health : ℚ
  frame : ℚ
  deriving DecidableEq, Repr

/-- `Player.take_damage(damage)` (`player.py` lines 183-226).  Every Python
`return` in this method returns `None`; the second component of the result
models that returned value (`Unit`).  Dead/hurt players ignore damage; during
`skill` the hit "misses"; while `blocking` the hit is "blocked" — in both
cases only a UI text is emitted and the state is unchanged.  Otherwise health
drops; at 0 or below it is clamped to 0 and the player dies, else the special
states are reset and the player enters `hurt`. -/
def playerTakeDamage (s : PlayerTD) (damage : ℚ) : PlayerTD × Unit :=
  if s.is_dead ∨ s.state = .hurt ∨ s.state = .death then (s, ())
  else if s.state = .skill then (s, ())
  else if s.blocking then (s, ())
  else
    let h := s.current_health - damage
    if h ≤ 0 then
      ({ s with current_health := 0, is_dead := true, state := .death, frame := 0 }, ())
    else
      ({ s with current_health := h,
                countering := false, counter_attacking := false,
                counter_ready := false, blocking := false, dashing := false,
                state := .hurt, frame := 0 }, ())

/-- A blocking player at full health. -/
def ptdBlocked : PlayerTD :=
  { is_dead := false, state := .block, blocking := true, countering := false,
    counter_attacking := false, counter_ready := false, dashing := false,
    current_health := 1000, max_health := 1000, frame := 0 }

/-- The same player not blocking. -/
def ptdOpen : PlayerTD := { ptdBlocked with state := .idle, blocking := false }

/-! ### Theorems settling the claims -/

theorem qmod_of_lt {a b : ℚ} (h0 : 0 ≤ a) (hb : a < b) : qmod a b = a := by
  have hbpos : 0 < b := lt_of_le_of_lt h0 hb
  have hfloor : ⌊a / b⌋ = 0 := by
    rw [Int.floor_eq_zero_iff]
    constructor
    · exact div_nonneg h0 hbpos.le
    · rw [div_lt_one hbpos]; exact hb
  simp [qmod, hfloor]

theorem atkSpent_tick {n : ℕ} {speed frac : ℚ} {s : AtkS} (h : atkSpent s) :
    atkSpent (attackTick n speed frac s).1 ∧ (attackTick n speed frac s).2 = false := by
  rcases h with h | h
  · rw [attackTick, h]
    exact ⟨Or.inl h, rfl⟩
  · cases hp : s.phase
    · rw [attackTick, hp]
      simp only [h, Bool.not_true, Bool.false_and]
      by_cases hf : qmod (s.frame + speed) n ≥ (n : ℚ) - 1
      · rw [if_pos hf]; exact ⟨Or.inl rfl, rfl⟩
      · rw [if_neg hf]; exact ⟨Or.inr (by simp [h]), rfl⟩
    · rw [attackTick, hp]
      exact ⟨Or.inr h, rfl⟩

theorem attackDamageCount_spent {n : ℕ} {speed frac : ℚ} {s : AtkS} {k : ℕ}
    (h : atkSpent s) : attackDamageCount n speed frac s k = 0 := by
  induction k generalizing s with
  | zero => rfl
  | succ k ih =>
      obtain ⟨h1, h2⟩ := @atkSpent_tick n speed frac s h
      rw [attackDamageCount, h2]
      simpa using ih h1

theorem attackTick_dealt_spent {n : ℕ} {speed frac : ℚ} {s : AtkS}
    (h : (attackTick n speed frac s).2 = true) :
    atkSpent (attackTick n speed frac s).1 := by
  cases hp : s.phase
  · rw [attackTick, hp] at h ⊢
    by_cases hf : qmod (s.frame + speed) n ≥ (n : ℚ) - 1
    · rw [if_pos hf]; exact Or.inl rfl
    · rw [if_neg hf] at h ⊢
      exact Or.inr (by simp only [Bool.or_eq_true]; right; simpa using h)
  · rw [attackTick, hp] at h
    exact absurd h (by simp)

theorem attackDamageCount_le_one (n : ℕ) (speed frac : ℚ) (s : AtkS) (k : ℕ) :
    attackDamageCount n speed frac s k ≤ 1 := by
  induction k generalizing s with
  | zero => exact Nat.zero_le 1
  | succ k ih =>
      rw [attackDamageCount]
      by_cases hd : (attackTick n speed frac s).2 = true
      · rw [if_pos hd, attackDamageCount_spent (attackTick_dealt_spent hd)]
      · rw [if_neg hd]
        simpa using ih (attackTick n speed frac s).1

/-- Claim C3: `check_ground_collision` with `ground_y = None` forces
`is_grounded = false` regardless of prior state; with ground `G`, a body whose
bottom edge `center_y + radius` is at or below `G` and which is moving downward
or stationary (`velocity_y ≥ 0`) is snapped so its bottom edge equals exactly
`G`, its vertical velocity is zeroed and it becomes grounded; if the bottom
edge is at or below `G` but the body moves upward (`velocity_y < 0`), the body
is left completely unchanged. -/
theorem C3_ground_resolution (rb : RB) (G : ℚ) :
    (check_ground_collision rb none).is_grounded = false ∧
    (rb.center_y + rb.radius ≥ G → rb.velocity_y ≥ 0 →
      (check_ground_collision rb (some G)).center_y + (check_ground_collision rb (some G)).radius = G ∧
      (check_ground_collision rb (some G)).velocity_y = 0 ∧
      (check_ground_collision rb (some G)).is_grounded = true) ∧
    (rb.center_y + rb.radius ≥ G → rb.velocity_y < 0 →
      check_ground_collision rb (some G) = rb) := by
  refine ⟨rfl, ?_, ?_⟩
  · intro hbot hvel
    simp [check_ground_collision, if_pos hbot, if_pos hvel]
  · intro hbot hvel
    have hvel' : ¬ rb.velocity_y ≥ 0 := not_le.mpr hvel
    simp [check_ground_collision, if_pos hbot, if_neg hvel']

/-- Witness for C3 at the spec's own example: a body of radius 10 centred at
`y = 0` (bottom edge at 10 = G + 1) moving downward with `vy = 5`, ground at 9. -/
theorem C3_ground_resolution_witness :
    let rb : RB := { center_x := 0, center_y := 0, radius := 10,
                     velocity_x := 0, velocity_y := 5,
                     is_grounded := false, ground_y := some 9, bounce := 1/10 }
    (check_ground_collision rb none).is_grounded = false ∧
    ((check_ground_collision rb (some 9)).center_y + (check_ground_collision rb (some 9)).radius = 9 ∧
     (check_ground_collision rb (some 9)).velocity_y = 0 ∧
     (check_ground_collision rb (some 9)).is_grounded = true) := by
  intro rb
  obtain ⟨h1, h2, _⟩ := C3_ground_resolution rb 9
  exact ⟨h1, h2 (by norm_num [rb]) (by norm_num [rb])⟩

/-- Claim C7: when the closest point of the tile rectangle lies at distance
`d` from the circle center with `0 < d < radius`, one resolution step moves the
center by exactly `radius - d` along the outward unit normal `(dx/d, dy/d)`,
subtracts `2 * (v · n) * bounce * n` from the velocity, and, exactly when the
normal's y-component is below `-0.7`, sets `is_grounded` and clamps a positive
(downward) reflected vertical velocity to 0; otherwise the grounded flag is
untouched and the reflected velocity is kept as is. -/
theorem C7_tile_resolution (rb : RB) (t : Rect) (d : ℚ)
    (hd : d * d = tileDx rb t * tileDx rb t + tileDy rb t * tileDy rb t)
    (h0 : 0 < d) (hr : d < rb.radius) :
    (resolve_tile_collision rb t d).center_x
        = rb.center_x + tileDx rb t / d * (rb.radius - d) ∧
    (resolve_tile_collision rb t d).center_y
        = rb.center_y + tileDy rb t / d * (rb.radius - d) ∧
    (resolve_tile_collision rb t d).velocity_x
        = rb.velocity_x - 2 * tileDot rb t d * (tileDx rb t / d) * rb.bounce ∧
    (tileDy rb t / d < -(7/10) →
      (resolve_tile_collision rb t d).is_grounded = true ∧
      (resolve_tile_collision rb t d).ground_y = some t.top ∧
      (resolve_tile_collision rb t d).velocity_y
          = if tileVyRefl rb t d > 0 then 0 else tileVyRefl rb t d) ∧
    (¬ tileDy rb t / d < -(7/10) →
      (resolve_tile_collision rb t d).is_grounded = rb.is_grounded ∧
      (resolve_tile_collision rb t d).ground_y = rb.ground_y ∧
      (resolve_tile_collision rb t d).velocity_y = tileVyRefl rb t d) := by
  unfold resolve_tile_collision
  rw [if_pos ⟨hr, h0⟩]
  by_cases hny : tileDy rb t / d < -(7/10)
  · rw [if_pos (by simpa [tileDy] using hny)]
    refine ⟨rfl, rfl, rfl, ?_, ?_⟩
    · intro _
      refine ⟨rfl, rfl, ?_⟩
      simp only [tileVyRefl, tileDot, tileDy, tileDx]
    · intro h; exact absurd hny h
  · rw [if_neg (by simpa [tileDy] using hny)]
    refine ⟨rfl, rfl, rfl, ?_, ?_⟩
    · intro h; exact absurd h hny
    · intro _
      refine ⟨rfl, rfl, ?_⟩
      simp only [tileVyRefl, tileDot, tileDy, tileDx]

/-- Witness for C7: a 3-4-5 configuration.  Circle of radius 6 centred at the
origin, tile with `left = 3, top = 4`; closest point `(3,4)`, distance 5,
normal `(-3/5, -4/5)` with `ny = -0.8 < -0.7`, velocity `(0, 5)` downward. -/
theorem C7_tile_resolution_witness :
    let rb : RB := { center_x := 0, center_y := 0, radius := 6,
                     velocity_x := 0, velocity_y := 5,
                     is_grounded := false, ground_y := none, bounce := 1/10 }
    let t : Rect := { left := 3, right := 10, top := 4, bottom := 10 }
    (5 : ℚ) * 5 = tileDx rb t * tileDx rb t + tileDy rb t * tileDy rb t ∧
    (resolve_tile_collision rb t 5).center_x = 0 + tileDx rb t / 5 * (6 - 5) ∧
    (resolve_tile_collision rb t 5).is_grounded = true := by
  intro rb t
  have hd : (5 : ℚ) * 5 = tileDx rb t * tileDx rb t + tileDy rb t * tileDy rb t := by
    norm_num [tileDx, tileDy, closestX, closestY, rb, t]
  obtain ⟨hx, _, _, hg, _⟩ :=
    C7_tile_resolution rb t 5 hd (by norm_num) (by norm_num [rb])
  have hny : tileDy rb t / 5 < -(7/10) := by
    norm_num [tileDy, closestY, rb, t]
  exact ⟨hd, by simpa [rb] using hx, (hg hny).1⟩

/-- Claim C10 (implicit): when the circle center lies inside (or on) the tile
rectangle, the closest point coincides with the center, the computed distance
is 0, and `resolve_tile_collision` changes nothing at all: the guard
`0 < dist` fails and the body is returned unmodified, so a deeply penetrated
body is never pushed out. -/
theorem C10_center_inside_tile_no_change (rb : RB) (t : Rect) (d : ℚ)
    (h1 : t.left ≤ rb.center_x) (h2 : rb.center_x ≤ t.right)
    (h3 : t.top ≤ rb.center_y) (h4 : rb.center_y ≤ t.bottom)
    (hd : d * d = tileDx rb t * tileDx rb t + tileDy rb t * tileDy rb t) :
    resolve_tile_collision rb t d = rb := by
  have hdx : tileDx rb t = 0 := by
    simp [tileDx, closestX, min_eq_left h2, max_eq_right h1]
  have hdy : tileDy rb t = 0 := by
    simp [tileDy, closestY, min_eq_left h4, max_eq_right h3]
  have hd0 : d = 0 := by
    have : d * d = 0 := by rw [hd, hdx, hdy]; ring
    exact mul_self_eq_zero.mp this
  unfold resolve_tile_collision
  rw [if_neg]
  rintro ⟨-, hpos⟩
  rw [hd0] at hpos
  exact lt_irrefl 0 hpos

/-- Witness for C10: a body whose center `(5, 5)` lies strictly inside the tile
`[0,10] × [0,10]`; resolution leaves the body untouched. -/
theorem C10_center_inside_tile_no_change_witness :
    let rb : RB := { center_x := 5, center_y := 5, radius := 30,
                     velocity_x := 2, velocity_y := 7,
                     is_grounded := false, ground_y := none, bounce := 1/10 }
    let t : Rect := { left := 0, right := 10, top := 0, bottom := 10 }
    resolve_tile_collision rb t 0 = rb := by
  intro rb t
  exact C10_center_inside_tile_no_change rb t 0
    (by norm_num [rb, t]) (by norm_num [rb, t]) (by norm_num [rb, t])
    (by norm_num [rb, t])
    (by norm_num [tileDx, tileDy, closestX, closestY, rb, t])

/-- Counterexample to claim C5: after the 20/40/60 combo the mook's health is
`100 - 20 - 40 - 60 = -20` and it is NOT clamped to 0 — `Enemy.take_damage`
(`enemy1.py` lines 141-155) has no clamping step, so `current_health` stays at
-20 after death, contradicting the claim that it "never leaves current_health
below 0 after the entity dies". -/
theorem C5_counterexample :
    mookAfterCombo.current_health = -20 ∧ mookAfterCombo.current_health ≠ 0 := by
  norm_num +decide [mookAfterCombo, mook0, enemyTakeDamage, enemyHurtTick, enemyAnimateFrame, qmod]

/-- Amended claim C5: the three-hit combo drives the mook's health to exactly
-20 (not clamped), the mook transitions to its `die` state, and it is excluded
from further combat: any subsequent `take_damage` call is a complete no-op
(and `Enemy.update` only plays the death animation before `kill()` removes it
from the live set). -/
theorem C5_three_hit_kill (d : ℚ) :
    mookAfterCombo.current_health = -20 ∧
    mookAfterCombo.state = .die ∧
    enemyTakeDamage mookAfterCombo d = mookAfterCombo := by
  have hst : mookAfterCombo.state = .die := by
    norm_num +decide [mookAfterCombo, mook0, enemyTakeDamage, enemyHurtTick, enemyAnimateFrame, qmod]
  refine ⟨?_, hst, ?_⟩
  · norm_num +decide [mookAfterCombo, mook0, enemyTakeDamage, enemyHurtTick, enemyAnimateFrame, qmod]
  · unfold enemyTakeDamage
    rw [if_pos (by rw [hst]; simp)]

/-- Witness for C5 (its single binder instantiated): a fourth hit of 9999 after
death changes nothing. -/
theorem C5_three_hit_kill_witness :
    mookAfterCombo.current_health = -20 ∧
    mookAfterCombo.state = .die ∧
    enemyTakeDamage mookAfterCombo 9999 = mookAfterCombo :=
  C5_three_hit_kill 9999

/-- Claim C2, amended: in the mook's and boss's attack branches (fractions 0.7
and 0.6), a tick applies damage exactly when the advanced frame cursor has
reached `N * damage_frame` with the latch unset — so the first such tick
applies it — the latch is then set (or the instance ends), and over any number
of further ticks the total number of damage applications of the instance never
exceeds one; with the latch already set no damage is ever applied.  (The
player's normal attacks do not follow this shape: see the counterexample.) -/
theorem C2_damage_latch (n : ℕ) (speed frac : ℚ) (s : AtkS) (k : ℕ)
    (hs : s.phase = .inAttack) :
    ((attackTick n speed frac s).2 = true ↔
      s.damage_dealt = false ∧ qmod (s.frame + speed) n ≥ (n : ℚ) * frac) ∧
    (s.damage_dealt = true → attackDamageCount n speed frac s k = 0) ∧
    attackDamageCount n speed frac s k ≤ 1 := by
  refine ⟨?_, ?_, ?_⟩
  · rw [attackTick, hs]
    by_cases hf : qmod (s.frame + speed) n ≥ (n : ℚ) - 1
    · rw [if_pos hf]; simp
    · rw [if_neg hf]; simp
  · intro h
    exact attackDamageCount_spent (Or.inr h)
  · exact attackDamageCount_le_one n speed frac s k

/-- Witness for C2 at the mook's parameters (animation length 10, speed 0.3,
damage fraction 0.7), from a fresh attack instance, over 3 ticks. -/
theorem C2_damage_latch_witness :
    (({ phase := .inAttack, frame := 0, damage_dealt := false } : AtkS).phase = AtkPhase.inAttack) ∧
    attackDamageCount 10 (3/10) (7/10)
      { phase := .inAttack, frame := 0, damage_dealt := false } 3 ≤ 1 :=
  ⟨rfl, (C2_damage_latch 10 (3/10) (7/10)
      { phase := .inAttack, frame := 0, damage_dealt := false } 3 rfl).2.2⟩

/-- Counterexample to claim C2: the player is a combat entity whose normal
attacks do NOT apply damage at the first tick with `frame ≥ N · fraction`.
`Player.click` (`player.py` lines 1125-1140) applies the 20 damage of attack 1
to the target during the click itself, with the frame cursor at 0 — below any
positive damage threshold (`N · fraction = 7` for `N = 10`, fraction 0.7) —
and the subsequent attack-animation ticks of `Player.update` apply no damage
at all (target health still 80 after 30 ticks, well past the threshold). -/
theorem C2_counterexample :
    (playerClick clickStart 1000).targetHealth = 80 ∧
    (playerClick clickStart 1000).frame = 0 ∧
    ((playerAttackUpdateTick 10)^[30] (playerClick clickStart 1000)).targetHealth = 80 ∧
    ¬ ((0 : ℚ) ≥ (10 : ℚ) * (7/10)) := by
  have h1 : playerClick clickStart 1000 =
      { clickStart with state := .atk 1, last_attack_time := 1000,
                        frame := 0, targetHealth := 80 } := by
    norm_num +decide [playerClick, clickStart, clickAttackDamage]
  have htick : ∀ s : ClickS, (playerAttackUpdateTick 10 s).targetHealth = s.targetHealth := by
    intro s
    rw [playerAttackUpdateTick]
    cases s.state <;> simp only <;> split <;> rfl
  have hiter : ∀ (m : ℕ) (s : ClickS),
      ((playerAttackUpdateTick 10)^[m] s).targetHealth = s.targetHealth := by
    intro m
    induction m with
    | zero => intro s; rfl
    | succ m ih =>
        intro s
        rw [Function.iterate_succ_apply]
        rw [ih (playerAttackUpdateTick 10 s), htick s]
  refine ⟨by rw [h1], by rw [h1], ?_, by norm_num⟩
  rw [hiter 30 (playerClick clickStart 1000), h1]

/-- Counterexample to claim C1: the claim says the window boundaries are
excluded for every target type, but against the Yori boss the window is
inclusive.  With a 10-frame `attack1` and the boss exactly at the lower
boundary `frame = 0.3 · 10 = 3` (damage latch unset), the counter attempt
succeeds. -/
theorem C1_counterexample :
    check_counter_timing (some (.yori
      { state := .attack1, len1 := 10, len2 := 8, len3 := 12,
        frame := 3, damage_dealt := false })) = true := by
  simp only [check_counter_timing, Bool.and_eq_true, decide_eq_true_eq]
  norm_num

/-- Claim C1, amended: a counter attempt succeeds iff the target is in an
attack state, its frame cursor lies in the window `(0.3·N, 0.7·N)` and the
damage latch is unset — where the window is STRICT for the mook but INCLUSIVE
(`[0.3·N, 0.7·N]`) for the boss.  In particular an attempt at `0.29·N` fails,
at `0.31·N` (latch unset) succeeds, and at `0.71·N` fails for both target
types, while exactly at `0.3·N` it fails against the mook but succeeds against
the boss. -/
theorem C1_counter_window (N : ℕ) (f : ℚ) (dd : Bool) (hN : 0 < N) :
    (check_counter_timing (some (.mook ⟨.attack, N, f, dd⟩)) = true ↔
      ((N : ℚ) * (3/10) < f ∧ f < (N : ℚ) * (7/10) ∧ dd = false)) ∧
    (check_counter_timing (some (.yori ⟨.attack1, N, N, N, f, dd⟩)) = true ↔
      ((N : ℚ) * (3/10) ≤ f ∧ f ≤ (N : ℚ) * (7/10) ∧ dd = false)) ∧
    check_counter_timing (some (.mook ⟨.attack, N, (N : ℚ) * (3/10), false⟩)) = false ∧
    check_counter_timing (some (.yori ⟨.attack1, N, N, N, (N : ℚ) * (3/10), false⟩)) = true ∧
    check_counter_timing (some (.mook ⟨.attack, N, (N : ℚ) * (29/100), false⟩)) = false ∧
    check_counter_timing (some (.mook ⟨.attack, N, (N : ℚ) * (31/100), false⟩)) = true ∧
    check_counter_timing (some (.mook ⟨.attack, N, (N : ℚ) * (71/100), false⟩)) = false ∧
    check_counter_timing (some (.yori ⟨.attack1, N, N, N, (N : ℚ) * (29/100), false⟩)) = false ∧
    check_counter_timing (some (.yori ⟨.attack1, N, N, N, (N : ℚ) * (31/100), false⟩)) = true ∧
    check_counter_timing (some (.yori ⟨.attack1, N, N, N, (N : ℚ) * (71/100), false⟩)) = false := by
  have hNq : (0 : ℚ) < (N : ℚ) := by exact_mod_cast hN
  have hmook : ∀ (g : ℚ) (d : Bool),
      check_counter_timing (some (.mook ⟨.attack, N, g, d⟩)) = true ↔
        ((N : ℚ) * (3/10) < g ∧ g < (N : ℚ) * (7/10) ∧ d = false) := by
    intro g d
    simp only [check_counter_timing, eq_self_iff_true, if_true, Bool.and_eq_true,
      decide_eq_true_eq, Bool.not_eq_true']
    tauto
  have hyori : ∀ (g : ℚ) (d : Bool),
      check_counter_timing (some (.yori ⟨.attack1, N, N, N, g, d⟩)) = true ↔
        ((N : ℚ) * (3/10) ≤ g ∧ g ≤ (N : ℚ) * (7/10) ∧ d = false) := by
    intro g d
    simp only [check_counter_timing, Bool.and_eq_true, decide_eq_true_eq,
      Bool.not_eq_true']
    tauto
  refine ⟨hmook f dd, hyori f dd, ?_, ?_, ?_, ?_, ?_, ?_, ?_, ?_⟩
  · rw [Bool.eq_false_iff, Ne, hmook]; intro h; exact absurd h.1 (lt_irrefl _)
  · rw [hyori]; refine ⟨le_refl _, by nlinarith, rfl⟩
  · rw [Bool.eq_false_iff, Ne, hmook]; intro h; nlinarith [h.1]
  · rw [hmook]; refine ⟨by nlinarith, by nlinarith, rfl⟩
  · rw [Bool.eq_false_iff, Ne, hmook]; intro h; nlinarith [h.2.1]
  · rw [Bool.eq_false_iff, Ne, hyori]; intro h; nlinarith [h.1]
  · rw [hyori]; refine ⟨by nlinarith, by nlinarith, rfl⟩
  · rw [Bool.eq_false_iff, Ne, hyori]; intro h; nlinarith [h.2.1]

/-- Witness for C1 at a 10-frame attack: frame 5 with latch unset is counted
strictly inside the mook window. -/
theorem C1_counter_window_witness :
    check_counter_timing (some (.mook ⟨.attack, 10, 5, false⟩)) = true :=
  (C1_counter_window 10 5 false (by norm_num)).1.mpr (by norm_num)

/-- Counterexample to claim C6: at 60% health the counter gate
`health_percentage < 0.55` is NOT met (`0.6 < 0.55` is false), so even with the
30% chance draw forced to succeed (`rand = 0`) the boss does not counter: a
20-damage hit in `attack1` reduces health from 300 to 280 and leaves the boss
in `attack1`, contradicting the claim that the damage is discarded and the
counter state entered. -/
theorem C6_counterexample :
    (yoriTakeDamage yoriAt60 20 0).current_health = 280 ∧
    (yoriTakeDamage yoriAt60 20 0).state = .attack1 := by
  norm_num +decide [yoriTakeDamage, yoriAt60, yoriStartCounterAttack, yoriTriggerLowHealthDialog]

/-- Claim C6, amended: when the boss's health fraction is strictly below the
55% threshold (not at 60%), it is in one of its attack states and the 30%
counter-chance draw succeeds, `take_damage` routes into the counter attack:
the boss enters state `counter` and its health is completely unchanged — the
incoming damage is discarded. -/
theorem C6_low_health_counter (s : YoriTD) (damage rand : ℚ)
    (hlow : s.current_health / s.max_health < 55/100)
    (hatk : s.state = .attack1 ∨ s.state = .attack2 ∨ s.state = .attack3)
    (hrand : rand < 3/10) :
    (yoriTakeDamage s damage rand).state = .counter ∧
    (yoriTakeDamage s damage rand).current_health = s.current_health := by
  have hcw : ¬ s.state = .counter_wait := by
    rcases hatk with h | h | h <;> rw [h] <;> intro hc <;> exact YState.noConfusion hc
  have hdie : ¬ s.state = .die := by
    rcases hatk with h | h | h <;> rw [h] <;> intro hc <;> exact YState.noConfusion hc
  have hcond : s.current_health / s.max_health < 55/100 ∧
      (s.state = .attack1 ∨ s.state = .attack2 ∨ s.state = .attack3) ∧
      rand < 3/10 := ⟨hlow, hatk, hrand⟩
  simp only [yoriTakeDamage, if_neg hcw, if_neg hdie, if_pos hcond,
    yoriStartCounterAttack]
  exact ⟨trivial, trivial⟩

/-- Witness for C6: a boss at 54% health (270/500) in `attack1`, draw 0
(always-succeed), hit for 50 — it counters and keeps all 270 health. -/
theorem C6_low_health_counter_witness :
    (yoriTakeDamage { yoriAt60 with current_health := 270 } 50 0).state = .counter ∧
    (yoriTakeDamage { yoriAt60 with current_health := 270 } 50 0).current_health = 270 :=
  C6_low_health_counter { yoriAt60 with current_health := 270 } 50 0
    (by norm_num [yoriAt60]) (Or.inl rfl) (by norm_num)

/-- Counterexample to claim C4: the knockback the boss hands the player does
NOT decay linearly.  Each tick of the player's knockback branch multiplies the
horizontal velocity by `0.95 * 0.99`, so the successive velocities
50, 47.025, 44.2270125 are not equally spaced — no initial force `F` and
duration `D` can satisfy `v(t) = F · (1 - t/D)` at `t = 0, 1, 2`, since
linear decay forces equal per-tick decrements. -/
theorem C4_counterexample :
    playerKBVel 0 - playerKBVel 1 ≠ playerKBVel 1 - playerKBVel 2 ∧
    ¬ ∃ F D : ℚ, D ≠ 0 ∧ ∀ k : ℕ, k ≤ 2 → playerKBVel k = F * (1 - (k : ℚ) / D) := by
  have h0 : playerKBVel 0 = 50 := rfl
  have h1 : playerKBVel 1 = 9405/200 := by
    norm_num [playerKBVel, playerKnockbackTick, playerKB0]
  have h2 : playerKBVel 2 = 17690805/400000 := by
    norm_num [playerKBVel, playerKnockbackTick, playerKB0]
  constructor
  · rw [h0, h1, h2]; norm_num
  · rintro ⟨F, D, hD, h⟩
    have e0 := h 0 (by norm_num)
    have e1 := h 1 (by norm_num)
    have e2 := h 2 (by norm_num)
    rw [h0] at e0
    rw [h1] at e1
    rw [h2] at e2
    push_cast at e0 e1 e2
    have hzero : (50 : ℚ) - 2 * (9405/200) + 17690805/400000 = 0 := by
      rw [e0, e1, e2]; ring
    norm_num at hzero

/-- Claim C4, amended: the boss's own block knockback (and its death knockback,
which shares the formula) decays by linear ease-out: with start velocity `F`
and duration `D > 0`, at elapsed time `t < D` the applied speed is exactly
`F · (1 - t/D)` — in particular `F/2` at `t = D/2` — and at `t ≥ D` it is
exactly 0 and the knockback flag clears.  The knockback the boss applies to
the player instead holds the player in the block pose with input suppressed
and ground friction suppressed (`is_grounded` forced false) while the
velocity decays multiplicatively by `0.95 · 0.99` per tick, and at the stored
end time the pose and velocity are cleared and control returns. -/
theorem C4_knockback (s : YoriKB) (p : PlayerKB) (now te : ℚ)
    (hkb : s.is_in_knockback = true) (hD : 0 < s.knockback_duration) :
    ((now - s.block_time) < s.knockback_duration →
      (yoriBlockKnockbackTick s now).velocity_x
        = -s.dir * (s.knockback_start_velocity * (1 - (now - s.block_time) / s.knockback_duration))) ∧
    (now = s.block_time + s.knockback_duration / 2 →
      (yoriBlockKnockbackTick s now).velocity_x
        = -s.dir * (s.knockback_start_velocity * (1/2))) ∧
    ((now - s.block_time) ≥ s.knockback_duration →
      (yoriBlockKnockbackTick s now).velocity_x = 0 ∧
      (yoriBlockKnockbackTick s now).is_in_knockback = false) ∧
    (p.knockback_end_time = some te → p.is_dead = false → now < te →
      (playerKnockbackTick p now).state = .block ∧
      (playerKnockbackTick p now).blocking = true ∧
      (playerKnockbackTick p now).is_grounded = false ∧
      (playerKnockbackTick p now).velocity_x = p.velocity_x * (95/100) * (99/100)) ∧
    (p.knockback_end_time = some te → p.is_dead = false → ¬ now < te →
      (playerKnockbackTick p now).state = .idle ∧
      (playerKnockbackTick p now).velocity_x = 0 ∧
      (playerKnockbackTick p now).knockback_end_time = none) := by
  refine ⟨?_, ?_, ?_, ?_, ?_⟩
  · intro ht
    have hprog : ¬ ((now - s.block_time) / s.knockback_duration ≥ 1) := by
      rw [not_le, div_lt_one hD]; exact ht
    rw [yoriBlockKnockbackTick, if_pos hkb, if_neg hprog]
  · intro hnow
    have ht : (now - s.block_time) < s.knockback_duration := by
      rw [hnow]; linarith
    have hprog : ¬ ((now - s.block_time) / s.knockback_duration ≥ 1) := by
      rw [not_le, div_lt_one hD]; exact ht
    rw [yoriBlockKnockbackTick, if_pos hkb, if_neg hprog, hnow]
    have : (s.block_time + s.knockback_duration / 2 - s.block_time) / s.knockback_duration
        = 1/2 := by
      field_simp
      ring
    rw [this]
    norm_num
  · intro ht
    have hprog : (now - s.block_time) / s.knockback_duration ≥ 1 := by
      rw [ge_iff_le, le_div_iff hD]; linarith
    rw [yoriBlockKnockbackTick, if_pos hkb, if_pos hprog]
    exact ⟨rfl, rfl⟩
  · intro hte hdead hnow
    rw [playerKnockbackTick, hte]
    simp only [hdead, Bool.false_eq_true, if_false, if_pos hnow]
    refine ⟨?_, ?_, ?_, ?_⟩ <;> trivial
  · intro hte hdead hnow
    rw [playerKnockbackTick, hte]
    simp only [hdead, Bool.false_eq_true, if_false, if_neg hnow]
    refine ⟨?_, ?_, ?_⟩ <;> trivial

/-- Witness for C4: the boss's block knockback at force 20 (the value in
`start_block_animation`), duration 0.8 s, sampled at its half-time
`t = 0.4` gives velocity `-1 * 20 * 0.5 = -10`; the player branch at time 0
with end time 1000 keeps the block pose and damps 50 to 47.025. -/
theorem C4_knockback_witness :
    let s : YoriKB := { velocity_x := -20, is_in_knockback := true, dir := 1,
                        knockback_start_velocity := 20, block_time := 0,
                        knockback_duration := 4/5 }
    (yoriBlockKnockbackTick s (2/5)).velocity_x = -1 * (20 * (1/2)) ∧
    (playerKnockbackTick playerKB0 0).velocity_x = 50 * (95/100) * (99/100) := by
  intro s
  constructor
  · have h := (C4_knockback s playerKB0 (2/5) 1000 rfl (by norm_num [s])).2.1
      (by norm_num [s])
    rw [h]
  · have h := (C4_knockback s playerKB0 0 1000 rfl (by norm_num [s])).2.2.2.1
      rfl rfl (by norm_num)
    exact h.2.2.2

/-- Counterexample to claim C8: the combo auto-advance is a state transition
(attack 1 → attack 2) that does NOT reset the frame cursor — it enters the new
state with the cursor still at 3 (`player.py` lines 913-916 update only
`state` and `last_attack_time`).  Moreover the looping `Enemy.animate`
(`enemy1.py` line 176) wraps the cursor modulo the sequence length, so within
a single state the cursor can decrease: from 9.9 a 0.3-step on a 10-frame loop
lands at 0.2. -/
theorem C8_counterexample :
    (playerAttackAutoAdvance autoAdv0 2000).state = .atk 2 ∧
    (playerAttackAutoAdvance autoAdv0 2000).frame = 3 ∧
    (playerAttackAutoAdvance autoAdv0 2000).frame ≠ 0 ∧
    enemyAnimateFrame 10 (3/10) (99/10) = 1/5 ∧ (1/5 : ℚ) < 99/10 := by
  refine ⟨?_, ?_, ?_, ?_, by norm_num⟩
  · norm_num [playerAttackAutoAdvance, autoAdv0, clickStart, attackDelays]
  · norm_num [playerAttackAutoAdvance, autoAdv0, clickStart, attackDelays]
  · norm_num [playerAttackAutoAdvance, autoAdv0, clickStart, attackDelays]
  · norm_num [enemyAnimateFrame, qmod]

/-- Claim C8, amended: explicit transitions do reset the frame cursor to 0 —
the combo's final auto-advance (attack 3 → idle) and the mook's
damage-induced transitions (`take_damage` to `hurt`/`die`) enter the new state
at frame 0 — and within a state the cursor advances monotonically as long as
the looping animation does not wrap (`frame + speed < N`); but the combo
auto-advance 1→2 (and 2→3) changes state while preserving the cursor, and a
looping animation wraps the cursor modulo `N`, so the cursor is not globally
non-decreasing between transitions. -/
theorem C8_frame_cursor (s : ClickS) (now : ℚ) (e : EnemyS) (d : ℚ)
    (N : ℕ) (speed f : ℚ) :
    (s.state = .atk 1 → now - s.last_attack_time > 1000 →
      (playerAttackAutoAdvance s now).state = .atk 2 ∧
      (playerAttackAutoAdvance s now).frame = s.frame) ∧
    (s.state = .atk 3 → now - s.last_attack_time > 1000 →
      (playerAttackAutoAdvance s now).state = .idle ∧
      (playerAttackAutoAdvance s now).frame = 0) ∧
    (e.state = .idle → (enemyTakeDamage e d).frame = 0) ∧
    (0 ≤ f → 0 ≤ speed → f + speed < N →
      enemyAnimateFrame N speed f = f + speed) := by
  refine ⟨?_, ?_, ?_, ?_⟩
  · intro hst hdel
    have hdel' : now - s.last_attack_time > attackDelays 1 := hdel
    simp only [playerAttackAutoAdvance, hst, if_pos hdel']
    norm_num
  · intro hst hdel
    have hdel' : now - s.last_attack_time > attackDelays 3 := hdel
    simp only [playerAttackAutoAdvance, hst, if_pos hdel']
    norm_num
  · intro hst
    have hni : ¬ (e.state = .hurt ∨ e.state = .die ∨ e.state = .stun) := by
      rw [hst]
      rintro (h | h | h) <;> exact EState.noConfusion h
    simp only [enemyTakeDamage, if_neg hni]
    split <;> rfl
  · intro hf hs hlt
    exact qmod_of_lt (by linarith) hlt

/-- Witness for C8: attack 1 at frame 3 auto-advances to attack 2 keeping
frame 3; a mook hit while idle enters `hurt` at frame 0; an idle 0.3-step from
frame 2 on a 10-frame loop reaches 2.3. -/
theorem C8_frame_cursor_witness :
    ((playerAttackAutoAdvance autoAdv0 2000).state = .atk 2 ∧
     (playerAttackAutoAdvance autoAdv0 2000).frame = autoAdv0.frame) ∧
    (enemyTakeDamage mook0 5).frame = 0 ∧
    enemyAnimateFrame 10 (3/10) 2 = 2 + 3/10 := by
  obtain ⟨h1, _, h3, h4⟩ := C8_frame_cursor autoAdv0 2000 mook0 5 10 (3/10) 2
  exact ⟨h1 rfl (by norm_num [autoAdv0, clickStart]), h3 rfl,
    h4 (by norm_num) (by norm_num) (by norm_num)⟩

/-- Counterexample to claim C9: `take_damage` does not return any of the four
outcome values — every path returns Python `None` (here `Unit`), so a blocked
hit and an applied hit produce IDENTICAL results of the operation, even though
one left health at 1000 and the other reduced it to 900.  The caller can only
distinguish outcomes from side effects, never from the returned value. -/
theorem C9_counterexample :
    (playerTakeDamage ptdBlocked 100).2 = (playerTakeDamage ptdOpen 100).2 ∧
    (playerTakeDamage ptdBlocked 100).1.current_health = 1000 ∧
    (playerTakeDamage ptdOpen 100).1.current_health = 900 := by
  refine ⟨rfl, ?_, ?_⟩ <;>
    norm_num +decide [playerTakeDamage, ptdBlocked, ptdOpen]

/-- Claim C9, amended: `take_damage` returns no outcome value (always `None`);
the blocked / missed-during-skill outcomes leave the player's record entirely
unchanged, while an applied hit either kills (health clamped to 0, state
`death`) or wounds (health reduced, state `hurt`) — outcomes are observable
only through the entity's state, not through the operation's result. -/
theorem C9_take_damage_result (s : PlayerTD) (d : ℚ)
    (hdead : s.is_dead = false) (hh : s.state ≠ .hurt) (hde : s.state ≠ .death) :
    (playerTakeDamage s d).2 = () ∧
    (s.state = .skill → (playerTakeDamage s d).1 = s) ∧
    (s.state ≠ .skill → s.blocking = true → (playerTakeDamage s d).1 = s) ∧
    (s.state ≠ .skill → s.blocking = false → s.current_health - d ≤ 0 →
      (playerTakeDamage s d).1.current_health = 0 ∧
      (playerTakeDamage s d).1.state = .death ∧
      (playerTakeDamage s d).1.is_dead = true) ∧
    (s.state ≠ .skill → s.blocking = false → ¬ (s.current_health - d ≤ 0) →
      (playerTakeDamage s d).1.current_health = s.current_health - d ∧
      (playerTakeDamage s d).1.state = .hurt) := by
  have hno : ¬ (s.is_dead = true ∨ s.state = .hurt ∨ s.state = .death) := by
    rintro (h | h | h)
    · rw [hdead] at h; exact Bool.false_ne_true h
    · exact hh h
    · exact hde h
  refine ⟨rfl, ?_, ?_, ?_, ?_⟩
  · intro hsk
    rw [playerTakeDamage, if_neg (by simpa using hno), if_pos hsk]
  · intro hsk hb
    rw [playerTakeDamage, if_neg (by simpa using hno), if_neg hsk, if_pos hb]
  · intro hsk hb hkill
    rw [playerTakeDamage, if_neg (by simpa using hno), if_neg hsk,
      if_neg (by rw [hb]; exact Bool.false_ne_true), if_pos hkill]
    exact ⟨rfl, rfl, rfl⟩
  · intro hsk hb hsur
    rw [playerTakeDamage, if_neg (by simpa using hno), if_neg hsk,
      if_neg (by rw [hb]; exact Bool.false_ne_true), if_neg hsur]
    exact ⟨rfl, rfl⟩

/-- Witness for C9: the open player hit for 100 survives with 900 health in
state `hurt`. -/
theorem C9_take_damage_result_witness :
    (playerTakeDamage ptdOpen 100).1.current_health = ptdOpen.current_health - 100 ∧
    (playerTakeDamage ptdOpen 100).1.state = .hurt := by
  have h := C9_take_damage_result ptdOpen 100 rfl
    (by intro h; exact PState.noConfusion h) (by intro h; exact PState.noConfusion h)
  exact h.2.2.2.2 (by intro h; exact PState.noConfusion h) rfl
    (by norm_num [ptdOpen, ptdBlocked])

end DMC
